import Mathlib

/-
  Verification development for the terminal-session relay of the dashboard
  backend (src/src/app/backend/handler/terminal.go).

  The Go code is shallowly embedded as executable Lean definitions:

  * `TerminalMessage` mirrors the wire struct (uint16 fields become `Nat`
    with explicit range conditions where they matter).
  * External effects (the SockJS transport receive and the JSON unmarshal)
    are abstracted as a `RecvOutcome` event describing which of the three
    outcomes the pair of calls produced; byte buffers are modelled at
    character granularity (`List Char`).
  * The `bound` channel of a session is a one-shot unbuffered Go channel
    shared by reference between the registry entry, the binder goroutine
    and the coordinator goroutine; its dynamic state is modelled by
    `ChanState` (receiver blocked / open with no receiver / closed).
    A send rendezvouses when a receiver waits, blocks forever when the
    channel is open with no receiver, and panics when the channel is
    closed, exactly as in Go.
  * The interleaving of `handleTerminalSession` (lines 172-174) with
    `WaitForTerminal` (lines 253-268) is modelled as a small-step system
    (`raceStep`) whose scheduler picks which goroutine advances.
-/

namespace Dashboard

/-- The wire struct of terminal.go (lines 59-62):
`Op, Data, SessionID string; Rows, Cols uint16`.
`Rows`/`Cols` are `Nat` here; the uint16 range shows up as an explicit
`< 65536` condition in the codec. -/
structure TerminalMessage where
  Op : String
  Data : String
  SessionID : String
  Rows : Nat
  Cols : Nat
deriving DecidableEq

/-- `remotecommand.TerminalSize` (the positional literal at line 90 is
`TerminalSize{Width, Height}`, filled with `{msg.Cols, msg.Rows}`). -/
structure TerminalSize where
  Width : Nat
  Height : Nat
deriving DecidableEq

/-- State of the one-shot unbuffered `bound` channel of a session, shared by
reference between the registry entry and both goroutines. -/
inductive ChanState where
  /-- `WaitForTerminal` is blocked receiving (line 254): a send rendezvouses. -/
  | waiting
  /-- Open but nobody is receiving: a send blocks forever. -/
  | idle
  /-- Closed by `WaitForTerminal` (line 255): a send panics. -/
  | closed
deriving DecidableEq

/-- The session struct (lines 43-48) as stored in the registry map.
`sockJSSession` is the attached transport connection, identified here by an
abstract numeric id; `none` is the nil (unbound) connection.  The `sizeChan`
payload queue is modelled separately (`List TerminalSize`), and `bound`
records the current state of the shared channel. -/
structure TerminalSession where
  id : String
  bound : ChanState
  sockJSSession : Option Nat
deriving DecidableEq

/-- Combined outcome of `sockJSSession.Recv()` followed by `json.Unmarshal`:
either the transport receive failed, or the bytes did not decode, or a
message was decoded. -/
inductive RecvOutcome where
  | recvErr (e : String)
  | decodeErr (e : String)
  | msg (m : TerminalMessage)
deriving DecidableEq

/-- Result of one call to `TerminalSession.Read` (lines 75-95): the returned
byte count, the bytes actually written into the caller buffer, the returned
error (`none` is Go nil), and the sizes pushed onto `sizeChan`. -/
structure ReadResult where
  count : Nat
  written : List Char
  err : Option String
  enqueued : List TerminalSize
deriving DecidableEq

/-- `TerminalSession.Read` (lines 75-95).  `copy(p, msg.Data)` copies
`min (len p) (len Data)` units and returns that count; the `resize` case
pushes `TerminalSize{msg.Cols, msg.Rows}` and consumes no buffer bytes;
every other outcome returns `(0, err)`. -/
def TerminalSession.Read (bufLen : Nat) (ev : RecvOutcome) : ReadResult :=
  match ev with
  | .recvErr e => ⟨0, [], some e, []⟩
  | .decodeErr e => ⟨0, [], some e, []⟩
  | .msg m =>
    if m.Op = "stdin" then
      ⟨min bufLen m.Data.length, m.Data.toList.take bufLen, none, []⟩
    else if m.Op = "resize" then
      ⟨0, [], none, [⟨m.Cols, m.Rows⟩]⟩
    else
      ⟨0, [], some ("unknown message type \x27" ++ m.Op ++ "\x27"), []⟩

/-- `TerminalSession.Next` (lines 66-71): receive from the FIFO `sizeChan`.
`none` models the blocked state (empty channel, the select suspends). -/
def TerminalSession.Next (sizeChan : List TerminalSize) :
    Option (TerminalSize × List TerminalSize) :=
  match sizeChan with
  | [] => none
  | s :: rest => some (s, rest)

/-- Outputs of `n` successive (non-blocking) `Next` calls on the queue. -/
def dequeueSeq : Nat → List TerminalSize → List TerminalSize
  | 0, _ => []
  | n + 1, q =>
    match TerminalSession.Next q with
    | none => []
    | some (s, rest) => s :: dequeueSeq n rest

/-- A sequence of `Read` calls (the remotecommand stdin loop), threading the
`sizeChan` queue: each decoded resize is appended (channel sends are FIFO). -/
def readAll (bufLen : Nat) :
    List RecvOutcome → List TerminalSize → List ReadResult × List TerminalSize
  | [], q => ([], q)
  | ev :: rest, q =>
    let r := TerminalSession.Read bufLen ev
    let p := readAll bufLen rest (q ++ r.enqueued)
    (r :: p.1, p.2)

/-- The stdin bytes a sequence of `Read` results delivered to the process. -/
def delivered : List ReadResult → List Char
  | [] => []
  | r :: rest => r.written ++ delivered rest

/-- JSON-object view of an encoded `TerminalMessage`: a flat record in which
each field is present or absent (absent fields decode to zero values). -/
structure WireMessage where
  Op : Option String
  Data : Option String
  SessionID : Option String
  Rows : Option Nat
  Cols : Option Nat
deriving DecidableEq

/-- `json.Marshal` of a `TerminalMessage`: every field of the flat struct is
written to the wire object. -/
def encode (m : TerminalMessage) : WireMessage :=
  ⟨some m.Op, some m.Data, some m.SessionID, some m.Rows, some m.Cols⟩

/-- `json.Unmarshal` into a `TerminalMessage`: absent fields keep the Go zero
value, and a number that does not fit uint16 is an unmarshal error. -/
def decode (w : WireMessage) : Except String TerminalMessage :=
  let rows := w.Rows.getD 0
  let cols := w.Cols.getD 0
  if rows < 65536 then
    if cols < 65536 then
      Except.ok ⟨w.Op.getD "", w.Data.getD "", w.SessionID.getD "", rows, cols⟩
    else Except.error "json: cannot unmarshal number into field Cols of type uint16"
  else Except.error "json: cannot unmarshal number into field Rows of type uint16"

/-- Lookup in the `terminalSessions` map (line 140), modelled as an
association list. -/
def lookupSession (reg : List (String × TerminalSession)) (sid : String) :
    Option TerminalSession :=
  match reg with
  | [] => none
  | (k, v) :: rest => if k = sid then some v else lookupSession rest sid

/-- Map store `terminalSessions[sid] = s` (line 174): replace when present,
insert otherwise. -/
def storeSession : List (String × TerminalSession) → String → TerminalSession →
    List (String × TerminalSession)
  | [], sid, s => [(sid, s)]
  | (k, v) :: rest, sid, s =>
    if k = sid then (sid, s) :: rest else (k, v) :: storeSession rest sid s

/-- `close(terminalSessions[sessionId].bound)` (line 255): the shared channel
of the entry, when present, becomes closed. -/
def closeBoundChan : List (String × TerminalSession) → String →
    List (String × TerminalSession)
  | [], _ => []
  | (k, v) :: rest, sid =>
    if k = sid then (k, { v with bound := ChanState.closed }) :: rest
    else (k, v) :: closeBoundChan rest sid

/-- How one run of `handleTerminalSession` (lines 143-175) ends. -/
inductive BindOutcome where
  /-- `session.Recv` failed: log and return (line 152). -/
  | recvFailed
  /-- `json.Unmarshal` failed: log and return (line 157). -/
  | decodeFailed
  /-- First message is not a `bind`: log and return (line 162). -/
  | notBind
  /-- No registry entry for the id: log and return (line 167). -/
  | sessionNotFound
  /-- Connection attached, `bound <- nil` delivered, entry stored back. -/
  | bound
  /-- `bound <- nil` hit a closed channel: the goroutine panics before the
  store at line 174 runs. -/
  | panicClosedChan
  /-- `bound <- nil` on an open channel with no receiver: the goroutine
  blocks forever before the store at line 174 runs. -/
  | blockedForever
deriving DecidableEq

/-- Everything one run of `handleTerminalSession` did: its outcome, the
registry afterwards, the messages it sent back on the new connection
(the function contains no `Send` call, so this list records that none
happened), and whether it delivered a `bound` signal. -/
structure BindResult where
  outcome : BindOutcome
  registry : List (String × TerminalSession)
  sent : List String
  signaled : Bool
deriving DecidableEq

/-- `handleTerminalSession` (lines 143-175) run atomically on one inbound
connection `conn`; `ev` is the outcome of `Recv` + `Unmarshal` of the first
message.  On lookup success the local copy gets the connection (line 172),
then the send on the shared `bound` channel (line 173) rendezvouses, panics
or blocks according to the channel state; only after a delivered send does
the store at line 174 run. -/
def handleTerminalSession (reg : List (String × TerminalSession))
    (ev : RecvOutcome) (conn : Nat) : BindResult :=
  match ev with
  | .recvErr _ => ⟨.recvFailed, reg, [], false⟩
  | .decodeErr _ => ⟨.decodeFailed, reg, [], false⟩
  | .msg m =>
    if m.Op ≠ "bind" then ⟨.notBind, reg, [], false⟩
    else
      match lookupSession reg m.SessionID with
      | none => ⟨.sessionNotFound, reg, [], false⟩
      | some ts =>
        match ts.bound with
        | .waiting =>
          ⟨.bound,
            storeSession reg m.SessionID
              { ts with sockJSSession := some conn, bound := ChanState.idle },
            [], true⟩
        | .idle => ⟨.blockedForever, reg, [], false⟩
        | .closed => ⟨.panicClosedChan, reg, [], false⟩

/-- Classifies the outcomes in which the binder rejected the attempt cleanly
(logged and returned, no attach, no crash, no stuck goroutine). -/
def isCleanRejection : BindOutcome → Bool
  | .recvFailed => true
  | .decodeFailed => true
  | .notBind => true
  | .sessionNotFound => true
  | .bound => false
  | .panicClosedChan => false
  | .blockedForever => false

/-- `isValidShell` (lines 239-246). -/
def isValidShell (validShells : List String) (shell : String) : Bool :=
  match validShells with
  | [] => false
  | v :: rest => if v = shell then true else isValidShell rest shell

/-- The fallback loop of `WaitForTerminal` (lines 266-271): try each shell in
order, keep the latest error, stop at the first success.  `startProcess` is
the external exec layer (abstract oracle); the second component records the
commands handed to it, in order.  The accumulator is the Go variable `err`
(zero value nil, i.e. `Except.ok ()`), whose latest assignment survives the
loop. -/
def tryShells (startProcess : List String → Except String Unit) :
    List String → Except String Unit → Except String Unit × List (List String)
  | [], err => (err, [])
  | s :: rest, _ =>
    match startProcess [s] with
    | .ok u => (.ok u, [[s]])
    | .error e =>
      let p := tryShells startProcess rest (.error e)
      (p.1, [s] :: p.2)

/-- Shell selection of `WaitForTerminal` (lines 256-272): a requested shell
on the allow-list `["bash", "sh"]` is executed directly; otherwise the
fallback loop runs.  Returns the final `err` and the commands attempted. -/
def shellSelection (shell : String)
    (startProcess : List String → Except String Unit) :
    Except String Unit × List (List String) :=
  let validShells := ["bash", "sh"]
  if isValidShell validShells shell then
    (startProcess [shell], [[shell]])
  else
    tryShells startProcess validShells (Except.ok ())

/-- Whether an attempt of `startProcess` on this command succeeds. -/
def startedOk (startProcess : List String → Except String Unit)
    (cmd : List String) : Bool :=
  match startProcess cmd with
  | .ok _ => true
  | .error _ => false

/-- One argument pair of a `t.sockJSSession.Close(status, reason)` call
(line 135). -/
structure CloseCall where
  status : Nat
  reason : String
deriving DecidableEq

/-- `WaitForTerminal` (lines 250-281) from the moment the `bound` signal is
received: the channel is closed (line 255), the shell is selected and run,
and the session is closed with status 2 and the error text on failure or
status 1 and "Process exited" on success.  Returns the `Close` calls made
and the registry afterwards — the function reads the map but never deletes
from it. -/
def WaitForTerminal (sessionId : String) (shell : String)
    (startProcess : List String → Except String Unit)
    (reg : List (String × TerminalSession)) :
    List CloseCall × List (String × TerminalSession) :=
  let reg1 := closeBoundChan reg sessionId
  match (shellSelection shell startProcess).1 with
  | .error e => ([⟨2, e⟩], reg1)
  | .ok _ => ([⟨1, "Process exited"⟩], reg1)

/-- Program counter of the binder goroutine inside the lookup-success branch
of `handleTerminalSession`. -/
inductive BinderPC where
  /-- About to run line 172 (`terminalSession.sockJSSession = session`,
  a write to the local struct copy). -/
  | setConn
  /-- About to run line 173 (`terminalSession.bound <- nil`). -/
  | sendBound
  /-- About to run line 174 (`terminalSessions[msg.SessionID] = terminalSession`). -/
  | writeBack
  | done
deriving DecidableEq

/-- Program counter of the coordinator goroutine (`WaitForTerminal`). -/
inductive CoordPC where
  /-- Blocked at line 254 (`<-terminalSessions[sessionId].bound`). -/
  | recvBound
  /-- About to run line 255 (`close(...)`). -/
  | closeChan
  /-- About to read `terminalSessions[sessionId]` and hand it to
  `startProcess` (lines 262 / 268). -/
  | readAndStart
  | finished
deriving DecidableEq

/-- Shared state of the two goroutines during the bind handshake for one
session: the registry entry's connection field, the binder's local copy of
it, the shared channel, both program counters, the connection value the
launcher was invoked with (once invoked), and whether, at the moment of
invocation, the binder's write-back had already run. -/
structure RaceState where
  entryConn : Option Nat
  localConn : Option Nat
  chanClosed : Bool
  bpc : BinderPC
  cpc : CoordPC
  launcherConn : Option (Option Nat)
  launchedAfterWriteBack : Bool
deriving DecidableEq

/-- Handshake start: entry registered and unbound, binder past the lookup,
coordinator blocked on the channel. -/
def raceInit : RaceState :=
  ⟨none, none, false, BinderPC.setConn, CoordPC.recvBound, none, false⟩

/-- Which goroutine the scheduler advances; the unbuffered-channel send and
receive complete together as one `rendezvous` step. -/
inductive Goroutine where
  | binder
  | coord
  | rendezvous
deriving DecidableEq

/-- One scheduler-chosen step of the handshake; `none` when the chosen
goroutine has no enabled step. -/
def raceStep (conn : Nat) (s : RaceState) : Goroutine → Option RaceState
  | .binder =>
    match s.bpc with
    | .setConn => some { s with localConn := some conn, bpc := BinderPC.sendBound }
    | .writeBack => some { s with entryConn := s.localConn, bpc := BinderPC.done }
    | _ => none
  | .rendezvous =>
    if s.bpc = BinderPC.sendBound ∧ s.cpc = CoordPC.recvBound ∧ ¬s.chanClosed then
      some { s with bpc := BinderPC.writeBack, cpc := CoordPC.closeChan }
    else none
  | .coord =>
    match s.cpc with
    | .closeChan => some { s with chanClosed := true, cpc := CoordPC.readAndStart }
    | .readAndStart =>
      some { s with launcherConn := some s.entryConn,
                    launchedAfterWriteBack := decide (s.bpc = BinderPC.done),
                    cpc := CoordPC.finished }
    | _ => none

/-- Run a schedule of goroutine choices from a state; `none` when some chosen
step was not enabled. -/
def raceRun (conn : Nat) : RaceState → List Goroutine → Option RaceState
  | s, [] => some s
  | s, g :: gs =>
    match raceStep conn s g with
    | none => none
    | some s2 => raceRun conn s2 gs

/-- A launcher oracle for which `bash` fails to start and `sh` starts: the
shell-availability probe scenario. -/
def shOnlyLauncher : List String → Except String Unit :=
  fun cmd => if cmd = ["sh"] then Except.ok () else Except.error "bash not found"

/-- Registry after a completed first handshake for id `abc123`: the binder
attached connection 1 and stored the entry back, and the coordinator,
woken by the `bound` signal, closed the shared channel (line 255). -/
def regAfterFirstHandshake : List (String × TerminalSession) :=
  closeBoundChan
    (handleTerminalSession [("abc123", ⟨"abc123", ChanState.waiting, none⟩)]
      (RecvOutcome.msg ⟨"bind", "", "abc123", 0, 0⟩) 1).registry
    "abc123"

/-- A registry holding one bound session, used for the close scenario. -/
def regOneSession : List (String × TerminalSession) :=
  [("abc123", ⟨"abc123", ChanState.waiting, some 1⟩)]

/-- Auxiliary: closing the bound channel of an entry never adds or removes
registry entries, so lookup success is unchanged for every key. -/
theorem lookup_closeBoundChan_isSome (reg : List (String × TerminalSession))
    (sid x : String) :
    (lookupSession (closeBoundChan reg sid) x).isSome =
      (lookupSession reg x).isSome := by
  induction reg with
  | nil => rfl
  | cons kv rest ih =>
    obtain ⟨k, v⟩ := kv
    by_cases hk : k = sid
    · simp only [closeBoundChan, if_pos hk, lookupSession]
      by_cases hx : k = x <;> simp [hx]
    · simp only [closeBoundChan, if_neg hk, lookupSession]
      by_cases hx : k = x <;> simp [hx, ih]

/-- Claim C1, counterexample: after a first completed bind for id `abc123`
(the coordinator has received the signal and closed the `bound` channel),
a second `bind` for the same id is NOT rejected by the protocol layer: the
registry entry is still found, and the handler reaches the send on the
closed channel, which panics in Go — not a clean log-and-drop rejection.
The registry does keep the first connection, since the write-back at line
174 is never reached. -/
theorem c1_second_bind_counterexample :
    (handleTerminalSession regAfterFirstHandshake
        (RecvOutcome.msg ⟨"bind", "", "abc123", 0, 0⟩) 2).outcome =
      BindOutcome.panicClosedChan ∧
    isCleanRejection
        (handleTerminalSession regAfterFirstHandshake
          (RecvOutcome.msg ⟨"bind", "", "abc123", 0, 0⟩) 2).outcome = false ∧
    lookupSession
        (handleTerminalSession regAfterFirstHandshake
          (RecvOutcome.msg ⟨"bind", "", "abc123", 0, 0⟩) 2).registry "abc123" =
      some ⟨"abc123", ChanState.closed, some 1⟩ := by
  decide

/-- Claim C1, amended: a second bind for an already-bound id passes the
lookup (entries are never removed after binding); the binder then attempts
to signal the `bound` channel, which the coordinator closed after the first
bind, so the handler panics rather than rejecting; the registry is left
unchanged, still attached to the first connection, and nothing is sent back
on the second connection. -/
theorem c1_second_bind_amended (reg : List (String × TerminalSession))
    (m : TerminalMessage) (conn : Nat) (ts : TerminalSession)
    (hop : m.Op = "bind") (hfound : lookupSession reg m.SessionID = some ts)
    (hclosed : ts.bound = ChanState.closed) :
    handleTerminalSession reg (RecvOutcome.msg m) conn =
      ⟨BindOutcome.panicClosedChan, reg, [], false⟩ := by
  simp [handleTerminalSession, hop, hfound, hclosed]

/-- Witness for the amended C1 at the concrete second-bind scenario. -/
theorem c1_second_bind_amended_witness :
    handleTerminalSession regAfterFirstHandshake
        (RecvOutcome.msg ⟨"bind", "", "abc123", 0, 0⟩) 2 =
      ⟨BindOutcome.panicClosedChan, regAfterFirstHandshake, [], false⟩ :=
  c1_second_bind_amended regAfterFirstHandshake ⟨"bind", "", "abc123", 0, 0⟩ 2
    ⟨"abc123", ChanState.closed, some 1⟩ rfl (by decide) rfl

/-- Claim C2: `Read` dispatches on the decoded operation: a `stdin` message
copies `Data` into the caller buffer and returns the copied count with nil
error; a `resize` message returns `(0, nil)`; any other operation, any
decode failure and any transport receive failure return zero bytes and a
non-nil error. -/
theorem c2_read_dispatch (bufLen : Nat) (ev : RecvOutcome) :
    (∀ e, ev = RecvOutcome.recvErr e →
      TerminalSession.Read bufLen ev = ⟨0, [], some e, []⟩) ∧
    (∀ e, ev = RecvOutcome.decodeErr e →
      TerminalSession.Read bufLen ev = ⟨0, [], some e, []⟩) ∧
    (∀ m, ev = RecvOutcome.msg m →
      (m.Op = "stdin" →
        TerminalSession.Read bufLen ev =
          ⟨min bufLen m.Data.length, m.Data.toList.take bufLen, none, []⟩) ∧
      (m.Op = "resize" →
        TerminalSession.Read bufLen ev = ⟨0, [], none, [⟨m.Cols, m.Rows⟩]⟩) ∧
      (m.Op ≠ "stdin" → m.Op ≠ "resize" →
        (TerminalSession.Read bufLen ev).count = 0 ∧
        (TerminalSession.Read bufLen ev).err ≠ none)) := by
  refine ⟨?_, ?_, ?_⟩
  · intro e h; subst h; rfl
  · intro e h; subst h; rfl
  · intro m h
    subst h
    refine ⟨?_, ?_, ?_⟩
    · intro hop; simp [TerminalSession.Read, hop]
    · intro hop; simp [TerminalSession.Read, hop]
    · intro h1 h2; simp [TerminalSession.Read, h1, h2]

/-- Witness for C2 at a concrete stdin message and buffer length 1. -/
theorem c2_read_dispatch_witness :
    TerminalSession.Read 1 (RecvOutcome.msg ⟨"stdin", "ab", "", 0, 0⟩) =
      ⟨1, [Char.ofNat 97], none, []⟩ :=
  (((c2_read_dispatch 1
        (RecvOutcome.msg ⟨"stdin", "ab", "", 0, 0⟩)).2.2
      ⟨"stdin", "ab", "", 0, 0⟩ rfl).1 rfl).trans (by decide)

/-- Claim C3, counterexample: the process exits normally, the session is
closed with status 1 and reason Process exited, and yet a subsequent lookup
of the id still finds the session — `WaitForTerminal` never deletes the
registry entry, contradicting the claim that the id is removed after the
terminating close. -/
theorem c3_lookup_after_close_counterexample :
    (WaitForTerminal "abc123" "sh" (fun _ => Except.ok ()) regOneSession).1 =
      [⟨1, "Process exited"⟩] ∧
    lookupSession
        (WaitForTerminal "abc123" "sh" (fun _ => Except.ok ()) regOneSession).2
        "abc123" =
      some ⟨"abc123", ChanState.closed, some 1⟩ := by
  constructor
  · rfl
  · rfl

/-- Claim C3, amended: after the terminating close the transport is closed
with the status and reason, but the registry is NOT pruned: every id that was
present before `WaitForTerminal` ran is still present afterwards (only the
bound channel of the entry is marked closed), so a subsequent lookup of the
closed session id still succeeds. -/
theorem c3_registry_never_removes (sessionId shell : String)
    (startProcess : List String → Except String Unit)
    (reg : List (String × TerminalSession)) (x : String) :
    (lookupSession ((WaitForTerminal sessionId shell startProcess reg).2) x).isSome =
      (lookupSession reg x).isSome := by
  have h2 : (WaitForTerminal sessionId shell startProcess reg).2 =
      closeBoundChan reg sessionId := by
    cases h : (shellSelection shell startProcess).1 <;> simp [WaitForTerminal, h]
  rw [h2]
  exact lookup_closeBoundChan_isSome reg sessionId x

/-- Claim C4 (code bug): with the schedule in which the coordinator, woken
by the `bound` rendezvous, closes the channel and reads the registry entry
for the launcher before the binder has executed its write-back (line 174),
`startProcess` receives the stale entry whose connection is still nil — the
first conjunct.  Only when the binder write-back is scheduled first does the
launcher see the attached connection — the second conjunct. -/
theorem c4_race_launcher_nil_connection :
    raceRun 7 raceInit
        [Goroutine.binder, Goroutine.rendezvous, Goroutine.coord, Goroutine.coord] =
      some ⟨none, some 7, true, BinderPC.writeBack, CoordPC.finished,
        some none, false⟩ ∧
    raceRun 7 raceInit
        [Goroutine.binder, Goroutine.rendezvous, Goroutine.binder,
          Goroutine.coord, Goroutine.coord] =
      some ⟨some 7, some 7, true, BinderPC.done, CoordPC.finished,
        some (some 7), true⟩ := by
  constructor
  · rfl
  · rfl

/-- Claim C5: a requested shell on the allow-list `[bash, sh]` is executed
directly as the command; otherwise each allow-listed shell is attempted in
order bash then sh, stopping at the first success, so when bash fails and sh
succeeds the attempted commands are exactly bash then sh, the final result
is success, and exactly one start succeeds. -/
theorem c5_shell_selection (startProcess : List String → Except String Unit)
    (shell : String) :
    (isValidShell ["bash", "sh"] shell = true →
      shellSelection shell startProcess = (startProcess [shell], [[shell]])) ∧
    (isValidShell ["bash", "sh"] shell = false →
      ∀ e, startProcess ["bash"] = Except.error e →
        startProcess ["sh"] = Except.ok () →
        shellSelection shell startProcess = (Except.ok (), [["bash"], ["sh"]]) ∧
        ((shellSelection shell startProcess).2.filter
            (fun c => startedOk startProcess c)).length = 1) := by
  constructor
  · intro h; simp [shellSelection, h]
  · intro h e hb hs
    have hsel : shellSelection shell startProcess =
        (Except.ok (), [["bash"], ["sh"]]) := by
      simp [shellSelection, h, tryShells, hb, hs]
    refine ⟨hsel, ?_⟩
    rw [hsel]
    simp [startedOk, hb, hs]

/-- Witness for C5: empty requested shell, bash fails, sh succeeds. -/
theorem c5_shell_selection_witness :
    shellSelection "" shOnlyLauncher = (Except.ok (), [["bash"], ["sh"]]) :=
  ((c5_shell_selection shOnlyLauncher "").2 rfl "bash not found" rfl rfl).1

/-- Claim C6: on launcher completion exactly one `Close` happens: with
status 2 and the error text when the selection returned an error, and with
status 1 and reason Process exited when it returned success. -/
theorem c6_close_on_completion (sessionId shell : String)
    (startProcess : List String → Except String Unit)
    (reg : List (String × TerminalSession)) :
    (WaitForTerminal sessionId shell startProcess reg).1.length = 1 ∧
    (∀ e, (shellSelection shell startProcess).1 = Except.error e →
      (WaitForTerminal sessionId shell startProcess reg).1 = [⟨2, e⟩]) ∧
    ((shellSelection shell startProcess).1 = Except.ok () →
      (WaitForTerminal sessionId shell startProcess reg).1 =
        [⟨1, "Process exited"⟩]) := by
  refine ⟨?_, ?_, ?_⟩
  · cases h : (shellSelection shell startProcess).1 <;>
      simp [WaitForTerminal, h]
  · intro e h; simp [WaitForTerminal, h]
  · intro h; simp [WaitForTerminal, h]

/-- Witness for C6: the probe launcher succeeds with sh, so the single close
carries status 1 and reason Process exited. -/
theorem c6_close_on_completion_witness :
    (WaitForTerminal "abc123" "" shOnlyLauncher regOneSession).1 =
      [⟨1, "Process exited"⟩] :=
  (c6_close_on_completion "abc123" "" shOnlyLauncher regOneSession).2.2 rfl

/-- Claim C7: a first message that fails to decode, carries an operation
other than bind, or names a session id absent from the registry makes the
binder abort the connection: the registry is returned unchanged, no bound
channel is signaled, and nothing is sent back on the connection. -/
theorem c7_bind_failures_no_mutation (reg : List (String × TerminalSession))
    (conn : Nat) :
    (∀ e, handleTerminalSession reg (RecvOutcome.decodeErr e) conn =
      ⟨BindOutcome.decodeFailed, reg, [], false⟩) ∧
    (∀ m, m.Op ≠ "bind" →
      handleTerminalSession reg (RecvOutcome.msg m) conn =
        ⟨BindOutcome.notBind, reg, [], false⟩) ∧
    (∀ m, m.Op = "bind" → lookupSession reg m.SessionID = none →
      handleTerminalSession reg (RecvOutcome.msg m) conn =
        ⟨BindOutcome.sessionNotFound, reg, [], false⟩) := by
  refine ⟨fun e => rfl, ?_, ?_⟩
  · intro m h; simp [handleTerminalSession, h]
  · intro m h hl; simp [handleTerminalSession, h, hl]

/-- Witness for C7: a bind naming an unknown id on an empty registry is
dropped without any mutation, signal or reply. -/
theorem c7_bind_failures_no_mutation_witness :
    handleTerminalSession [] (RecvOutcome.msg ⟨"bind", "", "doesnotexist", 0, 0⟩) 5 =
      ⟨BindOutcome.sessionNotFound, [], [], false⟩ :=
  (c7_bind_failures_no_mutation [] 5).2.2 ⟨"bind", "", "doesnotexist", 0, 0⟩ rfl rfl

/-- Claim C8: a decoded resize message never advances the byte buffer and
enqueues exactly the decoded pair, cols into the width component and rows
into the height component; the size queue is dequeued in FIFO order by
`Next`, which blocks (has no value) on an empty queue. -/
theorem c8_resize_enqueue_fifo (bufLen : Nat) (m : TerminalMessage) :
    (m.Op = "resize" →
      TerminalSession.Read bufLen (RecvOutcome.msg m) =
        ⟨0, [], none, [{ Width := m.Cols, Height := m.Rows }]⟩) ∧
    (∀ (n : Nat) (q : List TerminalSize), dequeueSeq n q = q.take n) ∧
    TerminalSession.Next [] = none := by
  refine ⟨?_, ?_, rfl⟩
  · intro h; simp [TerminalSession.Read, h]
  · intro n
    induction n with
    | zero => intro q; rfl
    | succ k ih =>
      intro q
      cases q with
      | nil => rfl
      | cons s rest => simp [dequeueSeq, TerminalSession.Next, ih]

/-- Witness for C8 at a concrete resize message and queue. -/
theorem c8_resize_enqueue_fifo_witness :
    TerminalSession.Read 5 (RecvOutcome.msg ⟨"resize", "", "", 24, 80⟩) =
      ⟨0, [], none, [⟨80, 24⟩]⟩ ∧
    dequeueSeq 2 [⟨80, 24⟩, ⟨81, 25⟩, ⟨82, 26⟩] = [⟨80, 24⟩, ⟨81, 25⟩] := by
  constructor
  · exact (c8_resize_enqueue_fifo 5 ⟨"resize", "", "", 24, 80⟩).1 rfl
  · rw [(c8_resize_enqueue_fifo 5 ⟨"resize", "", "", 24, 80⟩).2.1 2
      [⟨80, 24⟩, ⟨81, 25⟩, ⟨82, 26⟩]]
    decide

/-- Claim C9: decoding the encoding of any message of the five operation
kinds (with uint16-ranged rows and cols) restores every field, and a wire
object with all fields absent decodes to the all-zero-values message. -/
theorem c9_codec_roundtrip (m : TerminalMessage)
    (hop : m.Op = "bind" ∨ m.Op = "stdin" ∨ m.Op = "resize" ∨
      m.Op = "stdout" ∨ m.Op = "toast")
    (hr : m.Rows < 65536) (hc : m.Cols < 65536) :
    decode (encode m) = Except.ok m ∧
    decode ⟨none, none, none, none, none⟩ = Except.ok ⟨"", "", "", 0, 0⟩ := by
  constructor
  · cases m
    simp_all [encode, decode]
  · rfl

/-- Witness for C9 at a concrete bind message. -/
theorem c9_codec_roundtrip_witness :
    decode (encode ⟨"bind", "d", "s", 1, 2⟩) = Except.ok ⟨"bind", "d", "s", 1, 2⟩ :=
  (c9_codec_roundtrip ⟨"bind", "d", "s", 1, 2⟩ (Or.inl rfl)
    (by decide) (by decide)).1

/-- Claim C10: when the stdin data is longer than the buffer, `Read` copies
only the first bufLen units, returns that count, and the cut-off suffix is
discarded: the bytes delivered by the whole remaining sequence of reads are
the truncated prefix followed by the deliveries of the later events alone,
which do not depend on the current data at all. -/
theorem c10_stdin_truncation (bufLen : Nat) (m : TerminalMessage)
    (rest : List RecvOutcome) (q : List TerminalSize)
    (hop : m.Op = "stdin") (hlen : bufLen < m.Data.length) :
    (TerminalSession.Read bufLen (RecvOutcome.msg m)).count = bufLen ∧
    (TerminalSession.Read bufLen (RecvOutcome.msg m)).written =
      m.Data.toList.take bufLen ∧
    delivered (readAll bufLen (RecvOutcome.msg m :: rest) q).1 =
      m.Data.toList.take bufLen ++ delivered (readAll bufLen rest q).1 := by
  have hread : TerminalSession.Read bufLen (RecvOutcome.msg m) =
      ⟨min bufLen m.Data.length, m.Data.toList.take bufLen, none, []⟩ := by
    simp [TerminalSession.Read, hop]
  refine ⟨?_, ?_, ?_⟩
  · rw [hread]
    exact Nat.min_eq_left (Nat.le_of_lt hlen)
  · rw [hread]
  · simp [readAll, hread, delivered]

/-- Witness for C10: data ab against a one-unit buffer; the b is dropped and
no later read delivers it. -/
theorem c10_stdin_truncation_witness :
    delivered (readAll 1 [RecvOutcome.msg ⟨"stdin", "ab", "", 0, 0⟩] []).1 =
      "ab".toList.take 1 ++ delivered (readAll 1 [] ([] : List TerminalSize)).1 :=
  (c10_stdin_truncation 1 ⟨"stdin", "ab", "", 0, 0⟩ [] [] rfl (by decide)).2.2

end Dashboard
